import Mathlib

/-!
Shallow embedding of the SMART Health Cards validation SDK sources
(`src/jws-compact.ts`, `src/image.ts`, and the trusted-issuer-directory
module), together with theorems settling the specification claims.

External library calls (pako, got, node-jose, svg2img, jsQR, and the
sibling validators `jws-payload.validate`, `validateSchema`,
`verifyHealthCardIssuerKey`, `qr.validate`) are modelled as oracle
fields of an environment record; the repository's own control flow,
log messages, error codes and returned values are translated from the
TypeScript source line by line.
-/

set_option autoImplicit false

namespace SHC

/-- Log severity levels of the `Log` class (`debug`, `info`, `warning`,
`error`, `fatal`). -/
inductive Level where
  | debug
  | info
  | warning
  | error
  | fatal
deriving DecidableEq

/-- The error codes of `src/error.ts` used by the embedded modules. -/
inductive ErrorCode where
  | TRAILING_CHARACTERS
  | JWS_TOO_LONG
  | JSON_PARSE_ERROR
  | SCHEMA_ERROR
  | INVALID_ISSUER_URL
  | ISSUER_KEY_DOWNLOAD_ERROR
  | JWS_VERIFICATION_ERROR
  | INFLATION_ERROR
  | QR_DECODE_ERROR
  | UNKNOWN_FILE_DATA
  | ISSUER_NOT_TRUSTED
deriving DecidableEq

/-- One log entry: a level, a message, and an optional error code
(the logger methods accept the code as an optional second argument). -/
structure Entry where
  level : Level
  message : String
  code : Option ErrorCode
deriving DecidableEq

/-- A stage log: its title, its own entries in the order they were
appended, and the optional child log (`log.child = ...` assignment). -/
structure Log where
  title : String
  entries : List Entry
  child : Option Log

def mkDebug (m : String) : Entry := ⟨Level.debug, m, none⟩

def mkInfo (m : String) : Entry := ⟨Level.info, m, none⟩

def mkWarn (m : String) (c : ErrorCode) : Entry := ⟨Level.warning, m, some c⟩

def mkError (m : String) (c : ErrorCode) : Entry := ⟨Level.error, m, some c⟩

/-- `log.error(msg)` with no error-code argument. -/
def mkErrorNoCode (m : String) : Entry := ⟨Level.error, m, none⟩

def mkFatal (m : String) (c : ErrorCode) : Entry := ⟨Level.fatal, m, some c⟩

/-- `log.fatal(msg)` with no error-code argument. -/
def mkFatalNoCode (m : String) : Entry := ⟨Level.fatal, m, none⟩

/-! ### JavaScript string primitives used by the source -/

/-- The whitespace set trimmed by JavaScript `String.prototype.trim`
(ECMAScript WhiteSpace and LineTerminator code points). -/
def isJsWs (c : Char) : Bool :=
  c = ' ' || c = '\t' || c = '\n' || c = '\r' ||
  c = '\x0b' || c = '\x0c' || c = '\u00A0' || c = '\u2028' || c = '\u2029' || c = '\uFEFF'

/-- Trim on character lists: drop leading and trailing whitespace. -/
def trimChars (l : List Char) : List Char :=
  (((l.dropWhile isJsWs).reverse.dropWhile isJsWs)).reverse

/-- Model of JavaScript `s.trim()`. -/
def jsTrim (s : String) : String := ⟨trimChars s.data⟩

/-- Model of JavaScript `s.split(sep)` for a one-character separator:
splits at every occurrence, keeping empty segments. -/
def splitCharAux (sep : Char) : List Char → List Char → List (List Char)
  | [], acc => [acc.reverse]
  | c :: rest, acc =>
      if c = sep then acc.reverse :: splitCharAux sep rest []
      else splitCharAux sep rest (c :: acc)

def splitChar (sep : Char) (l : List Char) : List (List Char) :=
  splitCharAux sep l []

/-! ### The shape regular expression of `jws-compact.ts` line 37

`/[0-9a-zA-Z_-]+\.[0-9a-zA-Z_-]+\.[0-9a-zA-Z_-]+/.test(jws)` — an
UNANCHORED test: it succeeds when the string CONTAINS a substring of
the shape `x.y.z` with `x`,`y`,`z` nonempty runs of base64url
characters. -/

/-- The character class `[0-9a-zA-Z_-]`. -/
def isB64u (c : Char) : Bool := c.isAlphanum || c = '_' || c = '-'

/-- Does a match of `B+\.B+\.B+` start at the head of `l`?  Because `.`
is not in the class, greedy munching is exact. -/
def matchXYZat (l : List Char) : Bool :=
  match l.dropWhile isB64u with
  | '.' :: r2 =>
      (match r2.dropWhile isB64u with
       | '.' :: r4 =>
           (decide (l.takeWhile isB64u ≠ []) &&
            decide (r2.takeWhile isB64u ≠ []) &&
            decide (r4.takeWhile isB64u ≠ []))
       | _ => false)
  | _ => false

/-- Unanchored containment test: some suffix of `l` starts a match.
This is the semantics of `RegExp.test` with the unanchored pattern. -/
def containsXYZ : List Char → Bool
  | [] => false
  | c :: rest => matchXYZat (c :: rest) || containsXYZ rest

/-! ### Base64 decoding (Node `Buffer.from(s, 'base64')`)

Node's base64 decoder accepts both the standard and the url-safe
alphabet, skips characters outside it, and decodes leftover groups of
2 or 3 sextets into 1 or 2 bytes. -/

def b64Val (c : Char) : Option Nat :=
  if 'A' ≤ c ∧ c ≤ 'Z' then some (c.toNat - 'A'.toNat)
  else if 'a' ≤ c ∧ c ≤ 'z' then some (c.toNat - 'a'.toNat + 26)
  else if '0' ≤ c ∧ c ≤ '9' then some (c.toNat - '0'.toNat + 52)
  else if c = '+' ∨ c = '-' then some 62
  else if c = '/' ∨ c = '_' then some 63
  else none

def b64Group : List Nat → List Nat
  | a :: b :: c :: d :: rest =>
      (a * 4 + b / 16) :: ((b % 16) * 16 + c / 4) :: ((c % 4) * 64 + d) :: b64Group rest
  | [a, b, c] => [a * 4 + b / 16, (b % 16) * 16 + c / 4]
  | [a, b] => [a * 4 + b / 16]
  | _ => []

/-- Model of `Buffer.from(s, 'base64')` as a byte list. -/
def b64Decode (s : String) : List Nat :=
  b64Group (s.data.filterMap b64Val)

/-- Model of rendering a decoded byte buffer back to text
(`buffer.toString()`), one character per byte. -/
def bytesToStr (bs : List Nat) : String :=
  ⟨bs.map Char.ofNat⟩

/-- Model of `Buffer.from(s, 'binary')`: each UTF-16 unit truncated to
a byte. -/
def latin1Bytes (s : String) : List Nat :=
  s.data.map (fun c => c.toNat % 256)

def hexDigit (n : Nat) : Char :=
  if n < 10 then Char.ofNat ('0'.toNat + n) else Char.ofNat ('a'.toNat + (n - 10))

/-- Model of `buffer.toString('hex')`. -/
def bytesToHex (bs : List Nat) : String :=
  ⟨(bs.map (fun b => [hexDigit (b / 16), hexDigit (b % 16)])).flatten⟩

/-! ### Embedding of `src/jws-compact.ts` -/

/-- The decoded JWS payload as far as this module inspects it: only the
`iss` claim is read.  `none` models an absent property (JavaScript
`undefined`). -/
structure JWSPayload where
  iss : Option String
deriving DecidableEq

/-- Oracles for the external collaborators of `jws-compact.ts`:
`validateSchema` (entries it appends to the caller log), `pako.inflateRaw`
(`.error` carries the exception rendered as a string), `jwsPayload.validate`
(result and child log), the `got` download combined with
`verifyHealthCardIssuerKey` (for `downloadKey`: `none` models any
network/parse failure reaching the `.catch`, `some es` the entries the
key verifier appends on success), and the `node-jose` verifier
(for `verifyJws`: `.error` carries the exception message). -/
structure CompactEnv where
  schemaEntries : String → List Entry
  inflateRaw : List Nat → Except String String
  payloadValidate : String → Option JWSPayload × Log
  keyFetch : String → Option (List Entry)
  verifySig : String → Except String Unit

def MAX_JWS_SINGLE_CHUNK_LENGTH : Nat := 1195

/-- `jws.split('.')` of the trimmed token, as strings. -/
def jwsParts (t : String) : List String :=
  (splitChar '.' t.data).map List.asString

/-- `parts[1]`, the raw (still base64url-encoded) payload segment. -/
def rawPayloadOf (t : String) : String :=
  (jwsParts t).getD 1 ""

/-- `pako.inflateRaw(Buffer.from(rawPayload, 'base64'), { to: 'string' })`
(line 58), via the inflate oracle. -/
def inflateResOf (env : CompactEnv) (t : String) : Except String String :=
  env.inflateRaw (b64Decode (rawPayloadOf t))

/-- The argument `inflatedPayload || rawPayload` passed to
`jwsPayload.validate` (line 70): the inflated text unless inflation
threw (then `inflatedPayload` is `undefined`) or produced the empty
string (falsy in JavaScript). -/
def payloadArgOf (env : CompactEnv) (t : String) : String :=
  match inflateResOf env t with
  | Except.ok s => if s = "" then rawPayloadOf t else s
  | Except.error _ => rawPayloadOf t

/-- The entries logged by the two `log.debug` calls at lines 53-54. -/
def headerDebugEntries (t : String) : List Entry :=
  [mkDebug ("JWS.header = " ++ bytesToStr (b64Decode ((jwsParts t).getD 0 ""))),
   mkDebug ("JWS.key (hex) = " ++ bytesToHex (latin1Bytes ((jwsParts t).getD 2 "")))]

/-- The entry/entries produced by the `try { inflateRaw } catch` block
(lines 56-66): an info entry on success, an `INFLATION_ERROR` error
entry (message joined with the rendered exception) on failure. -/
def inflateEntries (env : CompactEnv) (t : String) : List Entry :=
  match inflateResOf env t with
  | Except.ok _ => [mkInfo "JWS payload inflated"]
  | Except.error e =>
      [mkError ("Error inflating JWS payload. Did you use raw DEFLATE compression?\n" ++ e)
        ErrorCode.INFLATION_ERROR]

/-- Embedding of `downloadKey(issuerURL, log)` (lines 113-130): the
entries it appends to the log.  The `.catch` path logs the
`ISSUER_KEY_DOWNLOAD_ERROR` error and the function falls back to the
existing key store (it returns `undefined`; the caller ignores the
return value either way). -/
def downloadKeyEntries (env : CompactEnv) (issuerURL : String) : List Entry :=
  mkInfo ("Retrieving issuer key from " ++ issuerURL ++ "/.well-known/jwks.json") ::
    (match env.keyFetch issuerURL with
     | some es => mkDebug "Downloaded issuer key(s) : " :: es
     | none => [mkError "Can\x27t parse downloaded issuer keys as a key set"
                  ErrorCode.ISSUER_KEY_DOWNLOAD_ERROR])

/-- Embedding of `verifyJws(jws, log)` (lines 133-147) combined with the
`if (await verifyJws(jws, log)) log.info(...)` call site (line 102):
info entry when the verifier succeeds, `JWS_VERIFICATION_ERROR` error
entry when it throws. -/
def verifyJwsEntries (env : CompactEnv) (t : String) : List Entry :=
  match env.verifySig t with
  | Except.ok _ => [mkInfo "JWS signature verified"]
  | Except.error m =>
      [mkError ("JWS verification failed : (" ++ m ++ ")") ErrorCode.JWS_VERIFICATION_ERROR]

/-- The entries appended before the shape check: the trailing-space
warning (lines 28-31) and the length warning (lines 33-35). -/
def preEntries (input : String) : List Entry :=
  (if jsTrim input ≠ input
   then [mkWarn "JWS has leading or trailing spaces" ErrorCode.TRAILING_CHARACTERS]
   else []) ++
  (if MAX_JWS_SINGLE_CHUNK_LENGTH < (jsTrim input).length
   then [mkWarn ("JWS is longer than 1195 characters, and will result in split QR codes")
           ErrorCode.JWS_TOO_LONG]
   else [])

/-- The `iss` checks of lines 85-96, given that `payload.iss` is the
string `iss` (the `payload.iss.slice` accesses are only reachable when
`iss` is present; the absent case throws and is handled in `validate`).
`!payload.iss` is JavaScript truthiness: it also fires on the empty
string. -/
def issCheckEntries (iss : String) : List Entry :=
  (if iss = ""
   then [mkError "Can\x27t find \x27iss\x27 entry in JWS payload" ErrorCode.SCHEMA_ERROR]
   else []) ++
  (if ⟨iss.data.take 8⟩ ≠ ("https://" : String)
   then [mkError "Issuer URL SHALL use https" ErrorCode.INVALID_ISSUER_URL]
   else []) ++
  (if iss.data.getLast? = some '/'
   then [mkError "Issuer URL SHALL NOT include a trailing /" ErrorCode.INVALID_ISSUER_URL]
   else [])

/-- Everything `validate` does after the trim step, on the trimmed
token `t` with the pre-accumulated entries `pre`.  A JavaScript
exception escaping the function (the `payload.iss.slice` TypeError when
`iss` is absent) is modelled as `Except.error` carrying the log state
at the moment of the throw. -/
def validateCore (env : CompactEnv) (t : String) (pre : List Entry) :
    Except Log (Option String × Log) :=
  if containsXYZ t.data = false then
    Except.ok (none,
      ⟨"JWS-compact",
       pre ++ [mkFatal "Failed to parse JWS-compact data as \x27base64url.base64url.base64url\x27 string."
                ErrorCode.JSON_PARSE_ERROR],
       none⟩)
  else
    let base := pre ++ env.schemaEntries t ++ headerDebugEntries t ++ inflateEntries env t
    let pv := env.payloadValidate (payloadArgOf env t)
    match pv.1 with
    | none => Except.ok (none, ⟨"JWS-compact", base, some pv.2⟩)
    | some payload =>
        match payload.iss with
        | none =>
            -- line 87 logs the schema error, then line 90 evaluates
            -- `payload.iss.slice(0, 8)` on `undefined`: TypeError.
            Except.error
              ⟨"JWS-compact",
               base ++ [mkError "Can\x27t find \x27iss\x27 entry in JWS payload" ErrorCode.SCHEMA_ERROR],
               some pv.2⟩
        | some iss =>
            Except.ok (some t,
              ⟨"JWS-compact",
               base ++ issCheckEntries iss ++ downloadKeyEntries env iss ++ verifyJwsEntries env t,
               some pv.2⟩)

/-- Embedding of `validate(jws)` of `src/jws-compact.ts`. -/
def validate (env : CompactEnv) (input : String) : Except Log (Option String × Log) :=
  validateCore env (jsTrim input) (preEntries input)

/-- The result component of a `validate` outcome; `none` when the
function threw instead of returning. -/
def resOf (o : Except Log (Option String × Log)) : Option (Option String) :=
  match o with
  | Except.ok (r, _) => some r
  | Except.error _ => none

/-- The log state of a `validate` outcome (returned or live at the
throw). -/
def outLog (o : Except Log (Option String × Log)) : Log :=
  match o with
  | Except.ok (_, l) => l
  | Except.error l => l

/-! ### Embedding of `src/image.ts` -/

/-- The file types `decode` switches on; `other` models any value
hitting the `default` branch. -/
inductive FileType where
  | svg
  | png
  | jpg
  | bmp
  | other
deriving DecidableEq

/-- Decoded pixel data (`fileInfo.image`), as consumed by `jsQR`. -/
structure ImageData where
  width : Nat
  height : Nat
  data : List Nat
deriving DecidableEq

/-- The slice of `FileInfo` that `image.ts` reads: name, file type, the
raw buffer (rendered as text for `svg2img`), and the pre-decoded pixel
data (present for raster inputs, absent otherwise). -/
structure FileInfo where
  name : String
  fileType : FileType
  buffer : String
  image : Option ImageData
deriving DecidableEq

/-- Oracles for the external collaborators of `image.ts`: `svg2img`
(`.error` carries the error message, `.ok` the rasterized buffer),
`PNG.sync.read`, `jsQR` (`none` models a `null` return), and
`qr.validate` (the child log it produces). -/
structure ImageEnv where
  svg2img : String → Except String (List Nat)
  pngRead : List Nat → ImageData
  jsQR : ImageData → Option String
  qrValidate : List String → Log

/-- Embedding of `decodeQrBuffer(fileInfo, log)` (lines 91-112): the
entries appended and the decoded string (or `undefined`). -/
def decodeQrBuffer (env : ImageEnv) (fi : FileInfo) : Option String × List Entry :=
  match fi.image with
  | none => (none, [mkFatalNoCode ("Could not read image data from : " ++ fi.name)])
  | some data =>
      match env.jsQR data with
      | none => (none, [mkFatal ("Could not decode QR image from : " ++ fi.name)
                          ErrorCode.QR_DECODE_ERROR])
      | some s => (some s, [])

/-- Embedding of `decode(fileInfo, log)` (lines 43-65).  For `svg`
inputs, a failing `svg2img` callback logs a fatal entry and rejects the
promise with `undefined`; the `await` then throws, modelled as
`Except.error` carrying the entries logged so far.  On success the
rasterized buffer is read into `fileInfo.image` and control falls
through to the raster cases. -/
def decode (env : ImageEnv) (fi : FileInfo) : Except (List Entry) (Option String × List Entry) :=
  match fi.fileType with
  | FileType.svg =>
      (match env.svg2img fi.buffer with
       | Except.error msg =>
           Except.error [mkFatalNoCode ("Could not convert SVG to image. Error: " ++ msg)]
       | Except.ok buf =>
           Except.ok (decodeQrBuffer env { fi with image := some (env.pngRead buf) }))
  | FileType.png => Except.ok (decodeQrBuffer env fi)
  | FileType.jpg => Except.ok (decodeQrBuffer env fi)
  | FileType.bmp => Except.ok (decodeQrBuffer env fi)
  | FileType.other =>
      Except.ok (none, [mkFatal "Unknown data in file" ErrorCode.UNKNOWN_FILE_DATA])

/-- The per-iteration success entries of the loop body (lines 30-31). -/
def decodedEntries (fi : FileInfo) (shc : String) : List Entry :=
  [mkInfo (fi.name ++ " decoded"), mkDebug (fi.name ++ " = " ++ shc)]

/-- The title chosen at lines 18-21. -/
def imageLogTitle (images : List FileInfo) : String :=
  if 1 < images.length then "QR images (" ++ toString images.length ++ ")" else "QR image"

/-- JSON string escaping as performed by `JSON.stringify` on a string
value (quote, backslash and control characters escaped). -/
def jsonEscapeChar (c : Char) : List Char :=
  if c = '"' then ['\\', '"']
  else if c = '\\' then ['\\', '\\']
  else if c = '\n' then ['\\', 'n']
  else if c = '\r' then ['\\', 'r']
  else if c = '\t' then ['\\', 't']
  else if c = '\x08' then ['\\', 'b']
  else if c = '\x0c' then ['\\', 'f']
  else if c.toNat < 32 then
    ['\\', 'u', '0', '0', hexDigit (c.toNat / 16), hexDigit (c.toNat % 16)]
  else [c]

def jsonQuote (s : String) : String :=
  ⟨'"' :: (s.data.map jsonEscapeChar).flatten ++ ['"']⟩

/-- Model of `JSON.stringify(shcStrings)` for an array of strings. -/
def jsonStringifyArr (xs : List String) : String :=
  "[" ++ String.intercalate "," (xs.map jsonQuote) ++ "]"

/-- The `for` loop of lines 26-32, carrying the accumulated entries and
decoded strings: stops with `(none, entries)` as soon as one image
fails to decode, propagates a thrown exception, and otherwise returns
the decoded strings in input order. -/
def imageLoop (env : ImageEnv) (acc : List Entry) (shcs : List String) :
    List FileInfo → Except (List Entry) (Option (List String) × List Entry)
  | [] => Except.ok (some shcs, acc)
  | fi :: rest =>
      match decode env fi with
      | Except.error es => Except.error (acc ++ es)
      | Except.ok (none, es) => Except.ok (none, acc ++ es)
      | Except.ok (some shc, es) =>
          imageLoop env (acc ++ es ++ decodedEntries fi shc) (shcs ++ [shc]) rest

/-- Embedding of `validate(images)` of `src/image.ts`.  `Except.error`
models the promise rejecting (an exception escaping the function); the
carried `Log` is the log state at that moment. -/
def imageValidate (env : ImageEnv) (images : List FileInfo) :
    Except Log (Option String × Log) :=
  match imageLoop env [] [] images with
  | Except.error es => Except.error ⟨imageLogTitle images, es, none⟩
  | Except.ok (none, es) => Except.ok (none, ⟨imageLogTitle images, es, none⟩)
  | Except.ok (some shcs, es) =>
      Except.ok (some (jsonStringifyArr shcs),
        ⟨imageLogTitle images, es, some (env.qrValidate shcs)⟩)

/-! ### Embedding of the trusted-issuer-directory module -/

/-- A participating issuer of the directory document. -/
structure TrustedIssuer where
  iss : String
  name : String
deriving DecidableEq

/-- The `participating_issuers` wrapper. -/
structure TrustedIssuers where
  participating_issuers : List TrustedIssuer
deriving DecidableEq

/-- The static state of the `TrustedIssuerDirectory` class:
`directoryName` and the optional loaded `issuers` document. -/
structure DirectoryState where
  directoryName : String
  issuers : Option TrustedIssuers
deriving DecidableEq

/-- `...participating_issuers.filter(issuer => issuer.iss === iss)
.map(issuer => issuer.name)[0]` — the first matched participant's
name, or `undefined`. -/
def firstMatchName (dir : TrustedIssuers) (iss : String) : Option String :=
  ((dir.participating_issuers.filter (fun i => i.iss = iss)).map (fun i => i.name)).head?

/-- Embedding of `checkTrustedIssuerDirectory(iss, log)`: the entries
it appends.  The debug message interpolates `TrustedIssuerDirectory.name`
— the JavaScript class object's `name` property, i.e. the literal
string `TrustedIssuerDirectory` — while the error message uses the
`directoryName` static field.  `if (issName)` is a truthiness test, so
an empty-string name takes the error branch. -/
def checkTrustedIssuerDirectory (st : DirectoryState) (iss : String) : List Entry :=
  match st.issuers with
  | some dir =>
      (match firstMatchName dir iss with
       | some n =>
           if n ≠ "" then
             [mkDebug ("Issuer found in TrustedIssuerDirectory directory; name: " ++ n)]
           else
             [mkError ("Issuer not part of the " ++ st.directoryName ++ " directory")
                ErrorCode.ISSUER_NOT_TRUSTED]
       | none =>
           [mkError ("Issuer not part of the " ++ st.directoryName ++ " directory")
              ErrorCode.ISSUER_NOT_TRUSTED])
  | none =>
      [mkErrorNoCode "Error validating against the trusted issuers directory: directory not set"]

/-! ### Spec-side definitions (written from the claims' words, for
comparison against the source embeddings) -/

/-- Spec-side: the WHOLE string segments as three dot-separated
nonempty base64url parts (the claim's reading of the `x.y.z` shape
check, i.e. an anchored match). -/
def specAnchoredXYZ (l : List Char) : Bool :=
  match l.dropWhile isB64u with
  | '.' :: r2 =>
      (match r2.dropWhile isB64u with
       | '.' :: r4 =>
           (decide (l.takeWhile isB64u ≠ []) &&
            decide (r2.takeWhile isB64u ≠ []) &&
            decide (r4 ≠ []) && r4.all isB64u)
       | _ => false)
  | _ => false

/-- Spec-side: `s` can be segmented into three dot-separated base64url
parts. -/
def specCanSegment (s : String) : Bool := specAnchoredXYZ s.data

/-- Spec-side: the payload the claim says is handed to the Payload
Validator when inflation fails — the raw BYTES of the base64url-decoded
payload segment (rendered as text), rather than the still-encoded
segment. -/
def specRawBytesArg (t : String) : String := bytesToStr (b64Decode (rawPayloadOf t))

/-! ### Concrete oracle environments for witnesses and counterexamples -/

/-- An empty child log as returned by a payload-validator oracle. -/
def plog0 : Log := ⟨"JWS-payload", [], none⟩

/-- Did the embedded function throw (reject) instead of returning? -/
def threw (o : Except Log (Option String × Log)) : Bool :=
  match o with
  | Except.error _ => true
  | Except.ok _ => false

/-- Environment whose payload validator parses successfully but yields
a payload with no `iss` claim. -/
def envC1 : CompactEnv :=
  { schemaEntries := fun _ => []
    inflateRaw := fun _ => Except.ok "{}"
    payloadValidate := fun _ => (some ⟨none⟩, plog0)
    keyFetch := fun _ => some []
    verifySig := fun _ => Except.ok () }

/-- C1: the claim says that on a successfully parsed payload with no
`iss` claim, `validate` logs the schema error and then PROCEEDS (to the
https check, trailing-slash check, key download and signature
verification) without raising an exception.  The code does log the
schema error, but the very next statement, `payload.iss.slice(0, 8)`,
dereferences `undefined` and throws a TypeError, so none of the later
steps run.  This theorem evaluates the embedded code at such an input:
`validate` throws after logging the schema error (contradicting the
code's own comment "continue, since we might have the key we need in
the global keystore"). -/
theorem C1_missing_iss_throws :
    threw (validate envC1 "a.b.c") = true ∧
    mkError "Can\x27t find \x27iss\x27 entry in JWS payload" ErrorCode.SCHEMA_ERROR ∈
      (outLog (validate envC1 "a.b.c")).entries ∧
    mkInfo "JWS signature verified" ∉ (outLog (validate envC1 "a.b.c")).entries := by
  refine ⟨by decide, by decide, by decide⟩

/-- Environment whose payload validator parses successfully (so payload
parsing did not "fail outright") but the payload has no `iss`. -/
def envC2 : CompactEnv :=
  { schemaEntries := fun _ => []
    inflateRaw := fun _ => Except.ok "{}"
    payloadValidate := fun _ => (some ⟨none⟩, plog0)
    keyFetch := fun _ => some []
    verifySig := fun _ => Except.ok () }

/-- C2 counterexample: an input on which payload parsing succeeds (the
Payload Validator returns a usable payload value), yet `validate` does
not return the compact-token string: it throws, producing no result at
all.  So "in every other case the result is the original compact-token
string" is false as stated. -/
theorem C2_counterexample :
    (envC2.payloadValidate (payloadArgOf envC2 "x.y.z")).1.isSome = true ∧
    resOf (validate envC2 "x.y.z") = none := by
  refine ⟨by decide, by decide⟩

/-- Environment whose payload validator always succeeds with a clean
https issuer, used to show processing continues past the shape check. -/
def envC3 : CompactEnv :=
  { schemaEntries := fun _ => []
    inflateRaw := fun _ => Except.ok "{}"
    payloadValidate := fun _ => (some ⟨some "https://good.example"⟩, plog0)
    keyFetch := fun _ => some []
    verifySig := fun _ => Except.ok () }

/-- C3 counterexample: the string `#a.b.c` cannot be segmented into
three dot-separated base64url parts (its first segment `#a` is not
base64url), yet the unanchored regex finds the substring `a.b.c`, the
shape check passes, and `validate` proceeds all the way to a
non-`undefined` result — no fatal entry, contradicting the claim's
"records a fatal log entry and returns an undefined result". -/
theorem C3_counterexample :
    specCanSegment "#a.b.c" = false ∧
    resOf (validate envC3 "#a.b.c") = some (some "#a.b.c") ∧
    (∀ e ∈ (outLog (validate envC3 "#a.b.c")).entries, e.level ≠ Level.fatal) := by
  refine ⟨by decide, by decide, by decide⟩

/-- Environment whose inflate oracle always fails, for the C4
counterexample. -/
def envC4 : CompactEnv :=
  { schemaEntries := fun _ => []
    inflateRaw := fun _ => Except.error "incorrect header check"
    payloadValidate := fun _ => (some ⟨some "https://good.example"⟩, plog0)
    keyFetch := fun _ => some []
    verifySig := fun _ => Except.ok () }

/-- C4 counterexample: when inflation of the token `h.AAAA.s` fails,
the argument handed to the Payload Validator is the still-encoded
base64url segment string `AAAA` itself, not the decoded raw bytes
(which are three zero bytes): the claim's "undecompressed raw bytes of
the base64url-decoded payload segment" is not what the code passes. -/
theorem C4_counterexample :
    payloadArgOf envC4 "h.AAAA.s" = "AAAA" ∧
    specRawBytesArg "h.AAAA.s" ≠ "AAAA" ∧
    b64Decode "AAAA" = [0, 0, 0] := by
  refine ⟨by decide, by decide, by decide⟩

/-- An anchored `x.y.z` match implies a head match of the unanchored
pattern. -/
theorem anchored_implies_matchAt (l : List Char) (h : specAnchoredXYZ l = true) :
    matchXYZat l = true := by
  unfold specAnchoredXYZ at h
  unfold matchXYZat
  split at h
  case _ r2 heq =>
    split at h
    case _ r4 heq2 =>
      simp only [Bool.and_eq_true, decide_eq_true_eq] at h ⊢
      obtain ⟨⟨⟨h1, h2⟩, h3⟩, h4⟩ := h
      refine ⟨⟨h1, h2⟩, ?_⟩
      cases r4 with
      | nil => exact absurd rfl h3
      | cons x xs =>
          have hx : isB64u x = true := by
            simpa using List.all_eq_true.mp h4 x (List.mem_cons_self x xs)
          simp [List.takeWhile_cons, hx]
    case _ => exact absurd h (by simp)
  case _ => exact absurd h (by simp)

/-- An anchored `x.y.z` match implies the unanchored containment test
succeeds. -/
theorem anchored_implies_contains (l : List Char) (h : specAnchoredXYZ l = true) :
    containsXYZ l = true := by
  cases l with
  | nil => exact absurd h (by decide)
  | cons c rest =>
      have hm := anchored_implies_matchAt (c :: rest) h
      simp [containsXYZ, hm]

/-- C3 (amended): the shape check is an UNANCHORED regex test.
`validate` records the fatal entry and returns an undefined result iff
the trimmed input CONTAINS no substring of the shape `x.y.z`; a string
merely containing such a substring passes the check and processing
continues to payload validation even when the whole string cannot be
segmented that way.  Any string wholly of the `x.y.z` shape does pass
the check. -/
theorem C3_amended (env : CompactEnv) (s : String) :
    (containsXYZ (jsTrim s).data = false →
      validate env s = Except.ok (none,
        ⟨"JWS-compact",
         preEntries s ++
           [mkFatal "Failed to parse JWS-compact data as \x27base64url.base64url.base64url\x27 string."
             ErrorCode.JSON_PARSE_ERROR],
         none⟩)) ∧
    (containsXYZ (jsTrim s).data = true →
      (outLog (validate env s)).child.isSome = true) ∧
    (specCanSegment (jsTrim s) = true → containsXYZ (jsTrim s).data = true) := by
  refine ⟨?_, ?_, ?_⟩
  · intro hc
    simp [validate, validateCore, hc]
  · intro hc
    simp only [validate, validateCore, hc]
    simp only [Bool.true_eq_false, if_false]
    split
    · simp [outLog]
    · split
      · simp [outLog]
      · simp [outLog]
  · intro hc
    exact anchored_implies_contains _ hc

/-- C3 witness: both live branches of the amended theorem exercised on
concrete inputs: `!!!` has no `x.y.z` substring and takes the fatal
path; `a.b.c` passes and processing reaches payload validation. -/
theorem C3_amended_witness :
    validate envC3 "!!!" = Except.ok (none,
      ⟨"JWS-compact",
       preEntries "!!!" ++
         [mkFatal "Failed to parse JWS-compact data as \x27base64url.base64url.base64url\x27 string."
           ErrorCode.JSON_PARSE_ERROR],
       none⟩) ∧
    (outLog (validate envC3 "a.b.c")).child.isSome = true := by
  exact ⟨(C3_amended envC3 "!!!").1 (by decide), (C3_amended envC3 "a.b.c").2.1 (by decide)⟩

/-- C2 (amended): whenever `validate` returns (it throws a TypeError
instead when the parsed payload has no `iss` value), the result is
`undefined` iff structural parsing failed (the unanchored shape test)
or the Payload Validator returned no usable payload; in every other
returning case the result is the whitespace-trimmed input token echoed
unchanged, not re-encoded. -/
theorem C2_amended (env : CompactEnv) (s : String) (r : Option String) (l : Log)
    (h : validate env s = Except.ok (r, l)) :
    (r = none ∨ r = some (jsTrim s)) ∧
    (r = some (jsTrim s) ↔
      (containsXYZ (jsTrim s).data = true ∧
       (env.payloadValidate (payloadArgOf env (jsTrim s))).1.isSome = true)) := by
  by_cases hc : containsXYZ (jsTrim s).data = false
  · simp [validate, validateCore, hc] at h
    obtain ⟨hr, -⟩ := h
    subst hr
    simp [hc]
  · have hc' : containsXYZ (jsTrim s).data = true := by
      cases hcc : containsXYZ (jsTrim s).data
      · exact absurd hcc hc
      · rfl
    simp only [validate, validateCore, hc', Bool.true_eq_false, if_false] at h
    rcases hpv : (env.payloadValidate (payloadArgOf env (jsTrim s))).1 with _ | ⟨_ | iss⟩
    · rw [hpv] at h
      simp only [Except.ok.injEq, Prod.mk.injEq] at h
      obtain ⟨hr, -⟩ := h
      subst hr
      simp [hpv]
    · rw [hpv] at h
      simp at h
    · rw [hpv] at h
      simp only [Except.ok.injEq, Prod.mk.injEq] at h
      obtain ⟨hr, -⟩ := h
      subst hr
      simp [hc', hpv]

/-- C2 witness: a concrete returning run — payload parses with a good
issuer, and the result echoes the trimmed token. -/
theorem C2_amended_witness :
    (some "a.b.c" = none ∨ some "a.b.c" = some (jsTrim " a.b.c")) ∧
    (some "a.b.c" = some (jsTrim " a.b.c") ↔
      (containsXYZ (jsTrim " a.b.c").data = true ∧
       (envC3.payloadValidate (payloadArgOf envC3 (jsTrim " a.b.c"))).1.isSome = true)) := by
  have h : validate envC3 " a.b.c" =
      Except.ok (some "a.b.c", outLog (validate envC3 " a.b.c")) := rfl
  have := C2_amended envC3 " a.b.c" (some "a.b.c") (outLog (validate envC3 " a.b.c")) h
  simpa using this

/-- C4 (amended): when raw DEFLATE decompression of the payload segment
fails, `validate` logs the inflation failure at error (not fatal)
severity and continues, but the best-effort payload handed to the
Payload Validator is the still-base64url-encoded payload segment
string (`rawPayload = parts[1]`), not the decoded raw bytes. -/
theorem C4_amended (env : CompactEnv) (s : String) (e : String)
    (h1 : containsXYZ (jsTrim s).data = true)
    (h2 : inflateResOf env (jsTrim s) = Except.error e) :
    payloadArgOf env (jsTrim s) = rawPayloadOf (jsTrim s) ∧
    mkError ("Error inflating JWS payload. Did you use raw DEFLATE compression?\n" ++ e)
      ErrorCode.INFLATION_ERROR ∈ (outLog (validate env s)).entries ∧
    (outLog (validate env s)).child.isSome = true := by
  refine ⟨?_, ?_, ?_⟩
  · simp [payloadArgOf, h2]
  · simp only [validate, validateCore, h1, Bool.true_eq_false, if_false]
    split
    · simp [outLog, inflateEntries, h2]
    · split
      · simp [outLog, inflateEntries, h2]
      · simp [outLog, inflateEntries, h2]
  · simp only [validate, validateCore, h1, Bool.true_eq_false, if_false]
    split
    · simp [outLog]
    · split
      · simp [outLog]
      · simp [outLog]

/-- C4 witness: concrete token `h.AAAA.s` under the failing inflate
oracle — the Payload Validator receives the encoded segment and the
error entry is present. -/
theorem C4_amended_witness :
    payloadArgOf envC4 "h.AAAA.s" = rawPayloadOf "h.AAAA.s" ∧
    mkError ("Error inflating JWS payload. Did you use raw DEFLATE compression?\nincorrect header check")
      ErrorCode.INFLATION_ERROR ∈ (outLog (validate envC4 "h.AAAA.s")).entries ∧
    (outLog (validate envC4 "h.AAAA.s")).child.isSome = true := by
  have := C4_amended envC4 "h.AAAA.s" "incorrect header check" (by decide) rfl
  simpa using this

/-- C5: on a token whose payload parses with an `iss` value but whose
issuer key-set download fails (network or parse failure) and whose
signature then fails to verify against the existing key store,
`validate` logs the issuer-key-download error, then the
signature-verification error, and still returns the decoded
(non-`undefined`) result; every entry produced by the download and
verification steps is below fatal severity. -/
theorem C5_download_failure (env : CompactEnv) (s iss : String) (m : String)
    (h1 : containsXYZ (jsTrim s).data = true)
    (h2 : (env.payloadValidate (payloadArgOf env (jsTrim s))).1 = some ⟨some iss⟩)
    (h3 : env.keyFetch iss = none)
    (h4 : env.verifySig (jsTrim s) = Except.error m) :
    ∃ l, validate env s = Except.ok (some (jsTrim s), l) ∧
      mkError "Can\x27t parse downloaded issuer keys as a key set"
        ErrorCode.ISSUER_KEY_DOWNLOAD_ERROR ∈ l.entries ∧
      mkError ("JWS verification failed : (" ++ m ++ ")")
        ErrorCode.JWS_VERIFICATION_ERROR ∈ l.entries ∧
      (∀ e ∈ downloadKeyEntries env iss, e.level ≠ Level.fatal) ∧
      (∀ e ∈ verifyJwsEntries env (jsTrim s), e.level ≠ Level.fatal) := by
  refine ⟨⟨"JWS-compact",
    preEntries s ++ env.schemaEntries (jsTrim s) ++ headerDebugEntries (jsTrim s) ++
      inflateEntries env (jsTrim s) ++ issCheckEntries iss ++ downloadKeyEntries env iss ++
      verifyJwsEntries env (jsTrim s),
    some (env.payloadValidate (payloadArgOf env (jsTrim s))).2⟩, ?_, ?_, ?_, ?_, ?_⟩
  · simp only [validate, validateCore, h1, Bool.true_eq_false, if_false]
    rw [h2]
  · simp [downloadKeyEntries, h3, List.mem_append]
  · simp [verifyJwsEntries, h4, List.mem_append]
  · intro e he
    simp only [downloadKeyEntries, h3, List.mem_cons] at he
    rcases he with rfl | rfl | he
    · simp [mkInfo]
    · simp [mkError]
    · simp at he
  · intro e he
    simp only [verifyJwsEntries, h4, List.mem_singleton] at he
    subst he
    simp [mkError]

/-- Environment for the C5 witness: key download fails, signature
verification throws. -/
def envC5 : CompactEnv :=
  { schemaEntries := fun _ => []
    inflateRaw := fun _ => Except.ok "{}"
    payloadValidate := fun _ => (some ⟨some "https://good.example"⟩, plog0)
    keyFetch := fun _ => none
    verifySig := fun _ => Except.error "no key found" }

/-- C5 witness: the theorem applied at a concrete token and failing
download/verification oracles. -/
theorem C5_download_failure_witness :
    ∃ l, validate envC5 "a.b.c" = Except.ok (some (jsTrim "a.b.c"), l) ∧
      mkError "Can\x27t parse downloaded issuer keys as a key set"
        ErrorCode.ISSUER_KEY_DOWNLOAD_ERROR ∈ l.entries ∧
      mkError ("JWS verification failed : (" ++ "no key found" ++ ")")
        ErrorCode.JWS_VERIFICATION_ERROR ∈ l.entries ∧
      (∀ e ∈ downloadKeyEntries envC5 "https://good.example", e.level ≠ Level.fatal) ∧
      (∀ e ∈ verifyJwsEntries envC5 (jsTrim "a.b.c"), e.level ≠ Level.fatal) :=
  C5_download_failure envC5 "a.b.c" "https://good.example" "no key found"
    (by decide) rfl rfl rfl

/-! ### Image QR Decoder claims -/

/-- The result component of `decode` for an image (its decoded string,
`none` when decoding failed or threw). -/
def decodedOf (env : ImageEnv) (fi : FileInfo) : Option String :=
  match decode env fi with
  | Except.ok (r, _) => r
  | Except.error _ => none

/-- Running the loop over a prefix of images that all decode
successfully appends their entries and decoded strings and continues
with the remaining images. -/
theorem imageLoop_decoded_prefix (env : ImageEnv) :
    ∀ (pre : List FileInfo) (tail : List FileInfo) (acc : List Entry) (shcs : List String),
    (∀ fi ∈ pre, (decodedOf env fi).isSome = true) →
    ∃ acc2, imageLoop env acc shcs (pre ++ tail) =
      imageLoop env (acc ++ acc2)
        (shcs ++ pre.map (fun fi => (decodedOf env fi).getD "")) tail
  | [], tail, acc, shcs, _ => ⟨[], by simp⟩
  | fi :: pre', tail, acc, shcs, h => by
      have hfi : (decodedOf env fi).isSome = true := h fi (List.mem_cons_self fi pre')
      rcases hd : decode env fi with es | ⟨r, es⟩
      · rw [decodedOf, hd] at hfi
        simp at hfi
      · rcases r with _ | shc
        · rw [decodedOf, hd] at hfi
          simp at hfi
        · have hval : decodedOf env fi = some shc := by rw [decodedOf, hd]
          have hrest := imageLoop_decoded_prefix env pre' tail
            (acc ++ es ++ decodedEntries fi shc) (shcs ++ [shc])
            (fun g hg => h g (List.mem_cons_of_mem fi hg))
          rcases hrest with ⟨acc2', hrest⟩
          refine ⟨es ++ decodedEntries fi shc ++ acc2', ?_⟩
          rw [List.cons_append, imageLoop, hd]
          show imageLoop env (acc ++ es ++ decodedEntries fi shc) (shcs ++ [shc])
            (pre' ++ tail) = _
          rw [hrest]
          simp [hval, List.append_assoc]

/-- C6: in a batch where the images before some image decode fine and
that image's QR decode fails (`jsQR` returns `null`), `validate`
returns `undefined` for the WHOLE batch — no partial-batch success —
and its log carries a fatal `QR_DECODE_ERROR` entry. -/
theorem C6_qr_decode_failure (env : ImageEnv) (pre : List FileInfo) (bad : FileInfo)
    (rest : List FileInfo) (d : ImageData)
    (hpre : ∀ fi ∈ pre, (decodedOf env fi).isSome = true)
    (ht : bad.fileType = FileType.png ∨ bad.fileType = FileType.jpg ∨
          bad.fileType = FileType.bmp)
    (hi : bad.image = some d) (hq : env.jsQR d = none) :
    ∃ l, imageValidate env (pre ++ bad :: rest) = Except.ok (none, l) ∧
      mkFatal ("Could not decode QR image from : " ++ bad.name)
        ErrorCode.QR_DECODE_ERROR ∈ l.entries := by
  have hdec : decode env bad =
      Except.ok (none, [mkFatal ("Could not decode QR image from : " ++ bad.name)
        ErrorCode.QR_DECODE_ERROR]) := by
    have hbuf : decodeQrBuffer env bad =
        (none, [mkFatal ("Could not decode QR image from : " ++ bad.name)
          ErrorCode.QR_DECODE_ERROR]) := by
      simp only [decodeQrBuffer, hi, hq]
    rcases ht with ht | ht | ht <;> simp only [decode, ht, hbuf]
  obtain ⟨acc2, hloop⟩ := imageLoop_decoded_prefix env pre (bad :: rest) [] [] hpre
  refine ⟨⟨imageLogTitle (pre ++ bad :: rest),
    ([] ++ acc2) ++ [mkFatal ("Could not decode QR image from : " ++ bad.name)
      ErrorCode.QR_DECODE_ERROR], none⟩, ?_, ?_⟩
  · rw [imageValidate, hloop, imageLoop, hdec]
  · simp [List.mem_append]

/-- Environment whose QR decoder finds no code in any image. -/
def imgEnvC6 : ImageEnv :=
  { svg2img := fun _ => Except.ok []
    pngRead := fun _ => ⟨0, 0, []⟩
    jsQR := fun _ => none
    qrValidate := fun _ => ⟨"QR numeric", [], none⟩ }

/-- C6 witness: a one-image batch whose PNG fails QR decoding. -/
theorem C6_qr_decode_failure_witness :
    ∃ l, imageValidate imgEnvC6 ([] ++ ⟨"bad.png", FileType.png, "", some ⟨1, 1, [0]⟩⟩ :: []) =
        Except.ok (none, l) ∧
      mkFatal ("Could not decode QR image from : " ++ "bad.png")
        ErrorCode.QR_DECODE_ERROR ∈ l.entries :=
  C6_qr_decode_failure imgEnvC6 [] ⟨"bad.png", FileType.png, "", some ⟨1, 1, [0]⟩⟩ [] ⟨1, 1, [0]⟩
    (fun fi hfi => absurd hfi (List.not_mem_nil fi)) (Or.inl rfl) rfl rfl

/-- C9: an SVG image whose rasterization fails makes the whole batch
yield no usable result: the wrapped conversion error is logged at
fatal severity and the function rejects (the exception escapes), so no
result value is produced for any image of the batch. -/
theorem C9_svg_conversion_failure (env : ImageEnv) (pre : List FileInfo) (bad : FileInfo)
    (rest : List FileInfo) (msg : String)
    (hpre : ∀ fi ∈ pre, (decodedOf env fi).isSome = true)
    (ht : bad.fileType = FileType.svg)
    (hs : env.svg2img bad.buffer = Except.error msg) :
    ∃ l, imageValidate env (pre ++ bad :: rest) = Except.error l ∧
      mkFatalNoCode ("Could not convert SVG to image. Error: " ++ msg) ∈ l.entries ∧
      (mkFatalNoCode ("Could not convert SVG to image. Error: " ++ msg)).level =
        Level.fatal := by
  have hdec : decode env bad =
      Except.error [mkFatalNoCode ("Could not convert SVG to image. Error: " ++ msg)] := by
    rw [decode, ht, hs]
  obtain ⟨acc2, hloop⟩ := imageLoop_decoded_prefix env pre (bad :: rest) [] [] hpre
  refine ⟨⟨imageLogTitle (pre ++ bad :: rest),
    ([] ++ acc2) ++ [mkFatalNoCode ("Could not convert SVG to image. Error: " ++ msg)],
    none⟩, ?_, ?_, rfl⟩
  · rw [imageValidate, hloop, imageLoop, hdec]
  · simp [List.mem_append]

/-- Environment whose SVG rasterizer fails. -/
def imgEnvC9 : ImageEnv :=
  { svg2img := fun _ => Except.error "broken svg"
    pngRead := fun _ => ⟨0, 0, []⟩
    jsQR := fun _ => some "shc:/1234"
    qrValidate := fun _ => ⟨"QR numeric", [], none⟩ }

/-- C9 witness: a one-image batch whose SVG fails to rasterize. -/
theorem C9_svg_conversion_failure_witness :
    ∃ l, imageValidate imgEnvC9 ([] ++ ⟨"bad.svg", FileType.svg, "<svg>", none⟩ :: []) =
        Except.error l ∧
      mkFatalNoCode ("Could not convert SVG to image. Error: " ++ "broken svg") ∈ l.entries ∧
      (mkFatalNoCode ("Could not convert SVG to image. Error: " ++ "broken svg")).level =
        Level.fatal :=
  C9_svg_conversion_failure imgEnvC9 [] ⟨"bad.svg", FileType.svg, "<svg>", none⟩ [] "broken svg"
    (fun fi hfi => absurd hfi (List.not_mem_nil fi)) rfl rfl

/-- C10: when every image of the batch decodes, the result is the JSON
serialization of the array of decoded per-image strings in input order
(an array string even for a single image), and the numeric-QR
validation log is attached as the child of the image log. -/
theorem C10_all_decoded (env : ImageEnv) (images : List FileInfo)
    (h : ∀ fi ∈ images, (decodedOf env fi).isSome = true) :
    ∃ l, imageValidate env images =
        Except.ok (some (jsonStringifyArr
          (images.map (fun fi => (decodedOf env fi).getD ""))), l) ∧
      l.child = some (env.qrValidate
        (images.map (fun fi => (decodedOf env fi).getD ""))) := by
  obtain ⟨acc2, hloop⟩ := imageLoop_decoded_prefix env images [] [] [] h
  rw [List.append_nil] at hloop
  refine ⟨⟨imageLogTitle images, [] ++ acc2,
    some (env.qrValidate (images.map (fun fi => (decodedOf env fi).getD "")))⟩, ?_, rfl⟩
  rw [imageValidate, hloop, imageLoop]
  simp

/-- Environment where every image decodes to a fixed numeric string. -/
def imgEnvC10 : ImageEnv :=
  { svg2img := fun _ => Except.ok []
    pngRead := fun _ => ⟨0, 0, []⟩
    jsQR := fun _ => some "shc:/5678"
    qrValidate := fun xs => ⟨"QR numeric", [mkInfo (toString xs.length)], none⟩ }

/-- C10 witness: a single PNG image; the result is the JSON ARRAY
string `["shc:/5678"]`, not the bare decoded string, and the child log
is the numeric-QR log. -/
theorem C10_all_decoded_witness :
    (∃ l, imageValidate imgEnvC10 [⟨"a.png", FileType.png, "", some ⟨1, 1, [0]⟩⟩] =
        Except.ok (some (jsonStringifyArr
          ([⟨"a.png", FileType.png, "", some ⟨1, 1, [0]⟩⟩].map
            (fun fi => (decodedOf imgEnvC10 fi).getD ""))), l) ∧
      l.child = some (imgEnvC10.qrValidate
        ([⟨"a.png", FileType.png, "", some ⟨1, 1, [0]⟩⟩].map
          (fun fi => (decodedOf imgEnvC10 fi).getD "")))) ∧
    jsonStringifyArr ["shc:/5678"] = "[\"shc:/5678\"]" := by
  refine ⟨C10_all_decoded imgEnvC10 [⟨"a.png", FileType.png, "", some ⟨1, 1, [0]⟩⟩] ?_, by decide⟩
  intro fi hfi
  simp only [List.mem_singleton] at hfi
  subst hfi
  decide

/-! ### Trimming lemmas for C7 -/

/-- The element exposed at the head of `dropWhile` fails the
predicate. -/
theorem head_dropWhile_false {α : Type} (p : α → Bool) :
    ∀ (l : List α) (x : α) (xs : List α), l.dropWhile p = x :: xs → p x = false
  | [], x, xs, h => by simp at h
  | c :: rest, x, xs, h => by
      rw [List.dropWhile_cons] at h
      by_cases hc : p c = true
      · rw [if_pos hc] at h
        exact head_dropWhile_false p rest x xs h
      · rw [if_neg hc] at h
        injection h with h1 h2
        subst h1
        exact Bool.not_eq_true _ |>.mp hc

/-- `head?` version of `head_dropWhile_false`. -/
theorem head?_dropWhile_false {α : Type} (p : α → Bool) (l : List α) (x : α)
    (h : (l.dropWhile p).head? = some x) : p x = false := by
  cases hd : l.dropWhile p with
  | nil => rw [hd] at h; simp at h
  | cons y ys =>
      rw [hd] at h
      simp only [List.head?_cons, Option.some.injEq] at h
      subst h
      exact head_dropWhile_false p l y ys hd

/-- `dropWhile` is idempotent. -/
theorem dropWhile_dropWhile {α : Type} (p : α → Bool) (l : List α) :
    (l.dropWhile p).dropWhile p = l.dropWhile p := by
  cases hd : l.dropWhile p with
  | nil => rfl
  | cons x xs =>
      have hx := head_dropWhile_false p l x xs hd
      simp [List.dropWhile_cons, hx]

/-- `dropWhile` keeps the last element when its result is nonempty. -/
theorem getLast_dropWhile {α : Type} (p : α → Bool) :
    ∀ (l : List α), l.dropWhile p ≠ [] → (l.dropWhile p).getLast? = l.getLast?
  | [], h => by simp at h
  | c :: rest, h => by
      by_cases hc : p c = true
      · rw [List.dropWhile_cons, if_pos hc] at h ⊢
        rw [getLast_dropWhile p rest h]
        cases rest with
        | nil => simp at h
        | cons b t => rw [List.getLast?_cons_cons]
      · rw [List.dropWhile_cons, if_neg hc]

/-- The two-sided trim is idempotent. -/
theorem trimChars_idem (l : List Char) : trimChars (trimChars l) = trimChars l := by
  unfold trimChars
  generalize hm : l.dropWhile isJsWs = m
  generalize hu : m.reverse.dropWhile isJsWs = u
  have hstepA : u.reverse.dropWhile isJsWs = u.reverse := by
    cases hr : u.reverse with
    | nil => rfl
    | cons x xs =>
        have hune : u ≠ [] := by
          intro h0
          rw [h0] at hr
          simp at hr
        have hx : isJsWs x = false := by
          have h1 : u.getLast? = some x := by
            rw [← List.head?_reverse, hr]
            rfl
          have h2 : m.reverse.getLast? = some x := by
            have := getLast_dropWhile isJsWs m.reverse (by rw [hu]; exact hune)
            rw [hu, h1] at this
            exact this.symm
          rw [List.getLast?_reverse] at h2
          refine head?_dropWhile_false isJsWs l x ?_
          rw [hm]
          exact h2
        simp [List.dropWhile_cons, hx]
  rw [hstepA, List.reverse_reverse, ← hu, dropWhile_dropWhile]

/-- JavaScript trimming is idempotent. -/
theorem jsTrim_idem (s : String) : jsTrim (jsTrim s) = jsTrim s := by
  show String.mk (trimChars (trimChars s.data)) = String.mk (trimChars s.data)
  rw [trimChars_idem]

/-- The result value of the post-trim pipeline does not depend on the
pre-accumulated warning entries. -/
theorem resOf_validateCore_pre (env : CompactEnv) (t : String) (p q : List Entry) :
    resOf (validateCore env t p) = resOf (validateCore env t q) := by
  unfold validateCore
  by_cases hc : containsXYZ t.data = false
  · simp [hc, resOf]
  · simp only [hc, if_false]
    rcases hpv : (env.payloadValidate (payloadArgOf env t)).1 with _ | ⟨_ | iss⟩ <;>
      simp [hpv, resOf]

/-- The trailing-characters warning entry of lines 28-31. -/
def trailEntry : Entry :=
  mkWarn "JWS has leading or trailing spaces" ErrorCode.TRAILING_CHARACTERS

theorem trail_not_mem_headerDebug (t : String) : trailEntry ∉ headerDebugEntries t := by
  simp [headerDebugEntries, trailEntry, mkWarn, mkDebug]

theorem trail_not_mem_inflate (env : CompactEnv) (t : String) :
    trailEntry ∉ inflateEntries env t := by
  intro h
  unfold inflateEntries at h
  rcases hr : inflateResOf env t with m | v <;> rw [hr] at h <;>
    simp [trailEntry, mkWarn, mkInfo, mkError] at h

theorem trail_not_mem_issCheck (iss : String) : trailEntry ∉ issCheckEntries iss := by
  unfold issCheckEntries
  intro h
  simp only [List.mem_append] at h
  rcases h with (h | h) | h <;>
    (revert h; split <;> simp [trailEntry, mkWarn, mkError])

theorem trail_not_mem_download (env : CompactEnv) (iss : String)
    (hkey : ∀ u es e, env.keyFetch u = some es → e ∈ es → e ≠ trailEntry) :
    trailEntry ∉ downloadKeyEntries env iss := by
  unfold downloadKeyEntries
  intro h
  rw [List.mem_cons] at h
  rcases h with h | h
  · simp [trailEntry, mkWarn, mkInfo] at h
  · rcases hk : env.keyFetch iss with _ | es <;> simp only [hk] at h
    · simp [trailEntry, mkWarn, mkError] at h
    · rw [List.mem_cons] at h
      rcases h with h | h
      · simp [trailEntry, mkWarn, mkDebug] at h
      · exact hkey iss es trailEntry hk h rfl

theorem trail_not_mem_verify (env : CompactEnv) (t : String) :
    trailEntry ∉ verifyJwsEntries env t := by
  intro h
  unfold verifyJwsEntries at h
  rcases hr : env.verifySig t with m | v <;> rw [hr] at h <;>
    simp [trailEntry, mkWarn, mkInfo, mkError] at h

theorem trail_mem_pre (s : String) : trailEntry ∈ preEntries s ↔ jsTrim s ≠ s := by
  unfold preEntries
  by_cases h : jsTrim s ≠ s
  · simp [h, trailEntry]
  · simp only [h, if_false, List.nil_append]
    split <;> simp [h, trailEntry, mkWarn]

/-- Membership of the trailing-characters warning in the final log
reduces to its membership in the pre-shape entries (no other stage
produces that entry, given that the schema and key-verifier oracles do
not). -/
theorem trail_mem_validate (env : CompactEnv) (s : String)
    (hsch : ∀ u e, e ∈ env.schemaEntries u → e ≠ trailEntry)
    (hkey : ∀ u es e, env.keyFetch u = some es → e ∈ es → e ≠ trailEntry) :
    trailEntry ∈ (outLog (validate env s)).entries ↔ trailEntry ∈ preEntries s := by
  have hns : trailEntry ∉ env.schemaEntries (jsTrim s) := fun h =>
    hsch (jsTrim s) trailEntry h rfl
  have hnd := trail_not_mem_headerDebug (jsTrim s)
  have hni := trail_not_mem_inflate env (jsTrim s)
  have hnv := trail_not_mem_verify env (jsTrim s)
  by_cases hc : containsXYZ (jsTrim s).data = false
  · have hne : trailEntry ≠
        mkFatal "Failed to parse JWS-compact data as \x27base64url.base64url.base64url\x27 string."
          ErrorCode.JSON_PARSE_ERROR := by decide
    simp only [validate, validateCore, hc, if_true]
    simp [outLog, List.mem_append, hne]
  · simp only [validate, validateCore, hc, if_false]
    rcases hpv : (env.payloadValidate (payloadArgOf env (jsTrim s))).1 with _ | ⟨_ | iss⟩ <;>
      simp only [hpv]
    · simp [outLog, List.mem_append, hns, hnd, hni]
    · have hne : trailEntry ≠
          mkError "Can\x27t find \x27iss\x27 entry in JWS payload" ErrorCode.SCHEMA_ERROR := by
        decide
      simp [outLog, List.mem_append, hns, hnd, hni, hne]
    · have hnc := trail_not_mem_issCheck iss
      have hndl := trail_not_mem_download env iss hkey
      simp [outLog, List.mem_append, hns, hnd, hni, hnc, hndl, hnv]

/-- C7: trimming is idempotent for the Compact Token Validator — the
result value of `validate` on the trimmed input equals that on the raw
input — and the trailing-characters warning is logged exactly when the
input differs from its trimmed form (the oracle hypotheses say the
external schema validator and key verifier never log that exact
entry). -/
theorem C7_trim_consistency (env : CompactEnv) (s : String)
    (hsch : ∀ u e, e ∈ env.schemaEntries u → e ≠ trailEntry)
    (hkey : ∀ u es e, env.keyFetch u = some es → e ∈ es → e ≠ trailEntry) :
    resOf (validate env (jsTrim s)) = resOf (validate env s) ∧
    (trailEntry ∈ (outLog (validate env s)).entries ↔ jsTrim s ≠ s) := by
  constructor
  · rw [validate, validate, jsTrim_idem]
    exact resOf_validateCore_pre env (jsTrim s) (preEntries (jsTrim s)) (preEntries s)
  · rw [trail_mem_validate env s hsch hkey]
    exact trail_mem_pre s

/-- Environment for the C7 witness. -/
def envC7 : CompactEnv :=
  { schemaEntries := fun _ => []
    inflateRaw := fun _ => Except.ok "{}"
    payloadValidate := fun _ => (some ⟨some "https://good.example"⟩, plog0)
    keyFetch := fun _ => some []
    verifySig := fun _ => Except.ok () }

/-- C7 witness: a whitespace-padded concrete token. -/
theorem C7_trim_consistency_witness :
    resOf (validate envC7 (jsTrim " a.b.c ")) = resOf (validate envC7 " a.b.c ") ∧
    (trailEntry ∈ (outLog (validate envC7 " a.b.c ")).entries ↔ jsTrim " a.b.c " ≠ " a.b.c ") := by
  refine C7_trim_consistency envC7 " a.b.c " ?_ ?_
  · intro u e h
    simp [envC7] at h
  · intro u es e hu he
    simp only [envC7, Option.some.injEq] at hu
    subst hu
    simp at he

/-! ### Trusted Issuer Directory claims -/

/-- The first filtered match is present exactly when some participant's
URL equals the issuer URL. -/
theorem firstMatch_aux (iss : String) : ∀ (l : List TrustedIssuer),
    ((l.filter (fun i => i.iss = iss)).map (fun i => i.name)).head?.isSome = true ↔
      ∃ p ∈ l, p.iss = iss
  | [] => by simp
  | x :: xs => by
      by_cases hx : x.iss = iss
      · simp [List.filter_cons, hx]
      · simp [List.filter_cons, hx, firstMatch_aux iss xs]

/-- C8 (amended): with no directory configured the function logs the
directory-unavailable error (no error code).  With a directory
configured it logs exactly one entry: the debug entry carrying the
first matched participant's name when a participant's URL equals `iss`
AND that participant's name is a non-empty string; otherwise — no
match, or a matched name that is the empty string (falsy under the
`if (issName)` truthiness test) — the issuer-not-trusted error.  Having
some match is equivalent to `firstMatchName` returning a value. -/
theorem C8_directory_check (st : DirectoryState) (iss : String) :
    (st.issuers = none →
      checkTrustedIssuerDirectory st iss =
        [mkErrorNoCode "Error validating against the trusted issuers directory: directory not set"]) ∧
    (∀ dir, st.issuers = some dir →
      (checkTrustedIssuerDirectory st iss).length = 1 ∧
      ((firstMatchName dir iss).isSome = true ↔
        ∃ p ∈ dir.participating_issuers, p.iss = iss) ∧
      (∀ n, firstMatchName dir iss = some n → n ≠ "" →
        checkTrustedIssuerDirectory st iss =
          [mkDebug ("Issuer found in TrustedIssuerDirectory directory; name: " ++ n)]) ∧
      ((firstMatchName dir iss = none ∨ firstMatchName dir iss = some "") →
        checkTrustedIssuerDirectory st iss =
          [mkError ("Issuer not part of the " ++ st.directoryName ++ " directory")
            ErrorCode.ISSUER_NOT_TRUSTED])) := by
  constructor
  · intro h
    rw [checkTrustedIssuerDirectory, h]
  · intro dir hdir
    refine ⟨?_, firstMatch_aux iss dir.participating_issuers, ?_, ?_⟩
    · simp only [checkTrustedIssuerDirectory, hdir]
      rcases hf : firstMatchName dir iss with _ | n
      · simp [hf]
      · by_cases hn : n = "" <;> simp [hf, hn]
    · intro n hf hn
      simp [checkTrustedIssuerDirectory, hdir, hf, hn]
    · intro hf
      rcases hf with hf | hf <;> simp [checkTrustedIssuerDirectory, hdir, hf]

/-- A directory whose only participant matches the queried issuer but
carries an empty friendly name. -/
def stC8 : DirectoryState := ⟨"VCI", some ⟨[⟨"https://ex.org", ""⟩]⟩⟩

/-- C8 counterexample: a participating issuer's URL is exactly equal to
`iss`, yet the function logs the issuer-not-trusted ERROR, not the
debug entry the claim promises for a match: the `if (issName)`
truthiness test treats the matched empty-string name as no match. -/
theorem C8_counterexample :
    (∃ p ∈ (⟨[⟨"https://ex.org", ""⟩]⟩ : TrustedIssuers).participating_issuers,
        p.iss = "https://ex.org") ∧
    stC8.issuers = some ⟨[⟨"https://ex.org", ""⟩]⟩ ∧
    checkTrustedIssuerDirectory stC8 "https://ex.org" =
      [mkError ("Issuer not part of the " ++ "VCI" ++ " directory")
        ErrorCode.ISSUER_NOT_TRUSTED] ∧
    (∀ e ∈ checkTrustedIssuerDirectory stC8 "https://ex.org", e.level ≠ Level.debug) := by
  refine ⟨⟨⟨"https://ex.org", ""⟩, by simp, rfl⟩, rfl, by decide, by decide⟩

/-- C8 witness: the amended theorem applied to a concrete unconfigured
state and to a configured one with a nonempty matched name. -/
theorem C8_directory_check_witness :
    checkTrustedIssuerDirectory ⟨"VCI", none⟩ "https://a.example" =
      [mkErrorNoCode "Error validating against the trusted issuers directory: directory not set"] ∧
    checkTrustedIssuerDirectory ⟨"VCI", some ⟨[⟨"https://a.example", "A Clinic"⟩]⟩⟩ "https://a.example" =
      [mkDebug ("Issuer found in TrustedIssuerDirectory directory; name: " ++ "A Clinic")] := by
  constructor
  · exact (C8_directory_check ⟨"VCI", none⟩ "https://a.example").1 rfl
  · exact ((C8_directory_check ⟨"VCI", some ⟨[⟨"https://a.example", "A Clinic"⟩]⟩⟩
      "https://a.example").2 ⟨[⟨"https://a.example", "A Clinic"⟩]⟩ rfl).2.2.1 "A Clinic"
      (by decide) (by decide)

end SHC
